import Mathlib

/-!
Shallow embedding of the study-assistant front-end (quiz engine, question-paper
generator, upload intake, resources browser) together with proofs of the
behavioural properties stated in the specification.

Each definition mirrors one function or data shape of the JavaScript source:
`Quiz.jsx` (quiz engine), the question-paper generator component, the PDF
uploader component and `Resources.jsx` (resources browser).  JavaScript
idioms (`x || d` truthiness defaults, `String.split`, `String.includes`,
`Math.round`) are embedded as explicit total functions.
-/

namespace GenaiHack

/-- JavaScript `x || d` for an optional number field: `undefined` and `0` are
falsy and fall back to the default. -/
def jsOrNat : Option Nat → Nat → Nat
  | some 0, d => d
  | some (n + 1), _ => n + 1
  | none, d => d

/-- JavaScript `x || d` for an optional string: `undefined` and `""` are falsy
and fall back to the default. -/
def jsOrStr : Option String → String → String
  | some s, d => if s = "" then d else s
  | none, d => d

/-- JavaScript `Math.round((score / total) * 100)` on non-negative integer
inputs: `⌊100·score/total + 1/2⌋`, computed with natural division as
`(200·score + total) / (2·total)`. -/
def jsRoundPct (score total : Nat) : Nat :=
  (200 * score + total) / (2 * total)

/-- Splits a character list at every occurrence of the separator, mirroring
JavaScript `String.prototype.split` (the result is never empty; an empty
input yields `[[]]`). -/
def splitOnChar (sep : Char) : List Char → List (List Char)
  | [] => [[]]
  | c :: cs =>
    let rest := splitOnChar sep cs
    if c = sep then [] :: rest
    else
      match rest with
      | [] => [[c]]
      | r :: rs => (c :: r) :: rs

/-- JavaScript `s.split(sep)` for a single-character separator. -/
def jsSplit (sep : Char) (s : String) : List String :=
  (splitOnChar sep s.toList).map (fun cs => String.mk cs)

/-- JavaScript `s.trim()`: strips leading and trailing whitespace. -/
def jsTrim (s : String) : String :=
  String.mk (((s.toList.dropWhile Char.isWhitespace).reverse.dropWhile
    Char.isWhitespace).reverse)

/-- JavaScript `s.toLowerCase()`, character by character. -/
def jsToLower (s : String) : String :=
  String.mk (s.toList.map Char.toLower)

/-- Decides whether `needle` occurs as a contiguous sublist of the list. -/
def listContains (needle : List Char) : List Char → Bool
  | [] => needle.isEmpty
  | c :: cs => needle.isPrefixOf (c :: cs) || listContains needle cs

/-- JavaScript `haystack.includes(needle)` (substring containment). -/
def jsIncludes (haystack needle : String) : Bool :=
  listContains needle.toList haystack.toList

/-! ## Quiz engine (`Quiz.jsx`)

The quiz component keeps its session in React state hooks; here the same
fields form an explicit record, and the handlers become functions on it. -/

/-- One entry of the static question banks in `Quiz.jsx`.  Fields that a given
bank entry omits (`answer` and `explanation` on free-response questions,
`sampleAnswer` and `points` on multiple-choice ones) are `Option`s. -/
structure Question where
  id : Nat
  text : String
  options : List String
  answer : Option String
  explanation : Option String
  sampleAnswer : Option String
  points : Option Nat
  type : String
  deriving Repr, DecidableEq

/-- The `easy` question bank of `Quiz.jsx`, templated on the topic. -/
def easyBank (topic : String) : List Question :=
  [ { id := 1
    , text := s!"What is the basic definition of {topic}?"
    , options := ["Option A - Basic concept", "Option B - Advanced concept",
                  "Option C - Complex theory", "Option D - Abstract idea"]
    , answer := some "Option A - Basic concept"
    , explanation :=
        some s!"{topic} is fundamentally about understanding basic concepts and principles."
    , sampleAnswer := none
    , points := none
    , type := "multiple-choice" }
  , { id := 2
    , text := s!"Which of the following is most related to {topic}?"
    , options := ["Related concept A", "Unrelated concept B",
                  "Different field C", "Random topic D"]
    , answer := some "Related concept A"
    , explanation :=
        some s!"Related concept A is directly connected to {topic} in fundamental ways."
    , sampleAnswer := none
    , points := none
    , type := "multiple-choice" } ]

/-- The `medium` question bank of `Quiz.jsx`, templated on the topic. -/
def mediumBank (topic : String) : List Question :=
  [ { id := 1
    , text := s!"Explain the key principles of {topic} and their applications."
    , options := []
    , answer := none
    , explanation := none
    , sampleAnswer :=
        some "Key principles include understanding core concepts and applying them effectively."
    , points := some 10
    , type := "short-answer" }
  , { id := 2
    , text := s!"What are the main advantages and disadvantages of {topic}?"
    , options := ["Advantages outweigh disadvantages", "Disadvantages outweigh advantages",
                  "Balanced pros and cons", "No clear advantages or disadvantages"]
    , answer := some "Balanced pros and cons"
    , explanation :=
        some "Most topics have both advantages and disadvantages that need to be carefully considered."
    , sampleAnswer := none
    , points := none
    , type := "multiple-choice" } ]

/-- The `hard` question bank of `Quiz.jsx`, templated on the topic. -/
def hardBank (topic : String) : List Question :=
  [ { id := 1
    , text := s!"Analyze the complex relationship between {topic} and its broader implications."
    , options := []
    , answer := none
    , explanation := none
    , sampleAnswer :=
        some "This requires deep analysis of interconnected concepts and their far-reaching effects."
    , points := some 20
    , type := "long-answer" }
  , { id := 2
    , text := s!"Which advanced concept best describes the theoretical framework of {topic}?"
    , options := ["Advanced Framework A", "Complex Theory B",
                  "Integrated Model C", "Holistic Approach D"]
    , answer := some "Integrated Model C"
    , explanation :=
        some "Integrated models provide the most comprehensive understanding of complex topics."
    , sampleAnswer := none
    , points := none
    , type := "multiple-choice" } ]

/-- Question selection in `generateQuestions` of `Quiz.jsx`:
`questionBank[difficulty] || questionBank.medium` — a lookup miss on the
three-key bank object falls back to the medium bank. -/
def generateQuestions (topic difficulty : String) : List Question :=
  if difficulty = "easy" then easyBank topic
  else if difficulty = "medium" then mediumBank topic
  else if difficulty = "hard" then hardBank topic
  else mediumBank topic

/-- One transcript entry pushed by `handleAnswer` into `userAnswers`. -/
structure AnswerRecord where
  question : String
  userAnswer : String
  correct : Bool
  deriving Repr, DecidableEq

/-- The payload `nextQuestion` passes to `onComplete` when the quiz finishes. -/
structure CompletionPayload where
  score : Nat
  total : Nat
  userAnswers : List AnswerRecord
  percentage : Nat
  deriving Repr, DecidableEq

/-- The React state hooks of the quiz component, as one record. -/
structure QuizState where
  questions : List Question
  currentQuestion : Nat
  score : Nat
  selectedAnswer : String
  showResult : Bool
  showExplanation : Bool
  userAnswers : List AnswerRecord
  isAnswered : Bool
  deriving Repr, DecidableEq

/-- The session state right after `generateQuestions` stores the bank: all
counters zeroed, per-question flags reset. -/
def initQuizState (qs : List Question) : QuizState :=
  { questions := qs
  , currentQuestion := 0
  , score := 0
  , selectedAnswer := ""
  , showResult := false
  , showExplanation := false
  , userAnswers := []
  , isAnswered := false }

/-- `handleAnswer` of `Quiz.jsx`.  Returns `none` when
`questions[currentQuestion]` is out of range (a JavaScript runtime error);
otherwise the updated state.  A second call on an answered question is the
first guard taking the early return. -/
def handleAnswer (answer : String) (s : QuizState) : Option QuizState :=
  if s.isAnswered then some s
  else
    match s.questions[s.currentQuestion]? with
    | none => none
    | some currentQ =>
      let isCorrect : Bool :=
        if currentQ.type = "multiple-choice" then currentQ.answer == some answer
        else !(jsTrim answer).isEmpty
      some { s with
        selectedAnswer := answer
        , isAnswered := true
        , score := s.score + (if isCorrect then jsOrNat currentQ.points 1 else 0)
        , userAnswers := s.userAnswers ++
            [{ question := currentQ.text, userAnswer := answer, correct := isCorrect }]
        , showExplanation := true }

/-- `nextQuestion` of `Quiz.jsx`: advance to the next question, or finish and
emit the completion payload (the second component models the `onComplete`
callback argument). -/
def nextQuestion (s : QuizState) : QuizState × Option CompletionPayload :=
  if s.currentQuestion + 1 < s.questions.length then
    ({ s with
        currentQuestion := s.currentQuestion + 1
      , selectedAnswer := ""
      , showExplanation := false
      , isAnswered := false }, none)
  else
    ({ s with showResult := true },
     some { score := s.score
          , total := s.questions.length
          , userAnswers := s.userAnswers
          , percentage := jsRoundPct s.score s.questions.length })

/-- `resetQuiz` of `Quiz.jsx`: back to the first question with all counters
zeroed, keeping the loaded question bank. -/
def resetQuiz (s : QuizState) : QuizState :=
  { initQuizState s.questions with questions := s.questions }

/-- A user interaction with the quiz: submitting an answer or pressing the
next/finish button. -/
inductive QuizOp where
  | submit (answer : String)
  | advance
  deriving Repr, DecidableEq

/-- One interaction step on the session state (the completion payload, if any,
is not needed for state evolution). -/
def quizStep (op : QuizOp) (s : QuizState) : Option QuizState :=
  match op with
  | .submit a => handleAnswer a s
  | .advance => some (nextQuestion s).1

/-- Runs a sequence of interactions from a given state, aborting on a
JavaScript runtime error. -/
def runQuizFrom (s : QuizState) : List QuizOp → Option QuizState
  | [] => some s
  | op :: ops =>
    match quizStep op s with
    | none => none
    | some s' => runQuizFrom s' ops

/-- The session state after a sequence of interactions on a freshly loaded
question bank. -/
def quizAfter (qs : List Question) (ops : List QuizOp) : Option QuizState :=
  runQuizFrom (initQuizState qs) ops

/-- Sum of the point values of a question list, with the JavaScript default
`currentQ.points || 1`. -/
def sumPoints (qs : List Question) : Nat :=
  (qs.map (fun q => jsOrNat q.points 1)).sum

/-! ## Question-paper generator

The generator component builds a three-section sample paper from the chosen
difficulty, topic selection and question-count configuration. -/

/-- One generated paper question; only Part A questions carry options. -/
structure PaperQuestion where
  id : Nat
  question : String
  options : Option (List String)
  marks : Nat
  difficulty : String
  deriving Repr, DecidableEq

/-- One section of a generated paper. -/
structure PaperSection where
  part : String
  title : String
  instructions : String
  questions : List PaperQuestion
  totalMarks : Nat
  deriving Repr, DecidableEq

/-- A generated question paper (the wall-clock `generatedAt` stamp is
omitted). -/
structure QuestionPaper where
  title : String
  subject : String
  timeLimit : Nat
  totalMarks : Nat
  sections : List PaperSection
  deriving Repr, DecidableEq

/-- `calculateTotalMarks` of the generator component. -/
def calculateTotalMarks (mcq short long : Nat) : Nat :=
  mcq * 1 + short * 3 + long * 10

/-- JavaScript `difficulty.charAt(0).toUpperCase() + difficulty.slice(1)`. -/
def capitalizeFirst (s : String) : String :=
  match s.toList with
  | [] => ""
  | c :: cs => String.mk (c.toUpper :: cs)

/-- `generatePaper` of the generator component (the part built inside the
3-second timeout): the sample paper handed to `setPaper` and `onGenerate`. -/
def generatePaper (difficulty : String) (selectedTopics : List String)
    (mcq short long timeLimit : Nat) : QuestionPaper :=
  let topicA := jsOrStr selectedTopics.head? "uploaded content"
  let topicB := jsOrStr selectedTopics.head? "document content"
  let topicC := jsOrStr selectedTopics.head? "uploaded material"
  { title := capitalizeFirst difficulty ++ " Level Question Paper"
  , subject :=
      if selectedTopics.length > 0 then String.intercalate ", " selectedTopics
      else "General Studies"
  , timeLimit := timeLimit
  , totalMarks := calculateTotalMarks mcq short long
  , sections :=
    [ { part := "A"
      , title := "Multiple Choice Questions"
      , instructions := "Choose the correct answer from the given options."
      , questions := (List.range mcq).map (fun i =>
          let n := i + 1
          { id := n
          , question := s!"Sample MCQ {n} based on {topicA}?"
          , options := some ["Option A", "Option B", "Option C", "Option D"]
          , marks := 1
          , difficulty := difficulty })
      , totalMarks := mcq }
    , { part := "B"
      , title := "Short Answer Questions"
      , instructions := "Answer in 2-3 sentences."
      , questions := (List.range short).map (fun i =>
          let n := i + 1
          { id := n
          , question := s!"Short answer question {n} about {topicB}."
          , options := none
          , marks := 3
          , difficulty := difficulty })
      , totalMarks := short * 3 }
    , { part := "C"
      , title := "Long Answer Questions"
      , instructions := "Answer in detail with examples."
      , questions := (List.range long).map (fun i =>
          let n := i + 1
          { id := n
          , question :=
              s!"Detailed question {n} requiring comprehensive analysis of {topicC}."
          , options := none
          , marks := 10
          , difficulty := difficulty })
      , totalMarks := long * 10 } ] }

/-! ## Upload intake (PDF uploader component)

`handleFileChange` validates the declared media type, and on acceptance the
2-second timeout builds the file record and fires the two callbacks.  The
synchronous part and the timeout body are modelled as one atomic transition
returning the final component state together with the emitted callbacks. -/

/-- The browser file object as far as the uploader inspects it. -/
structure FileInput where
  name : String
  type : String
  deriving Repr, DecidableEq

/-- The opaque result of `URL.createObjectURL(file)`, kept abstract but tied
to the file it references. -/
structure ObjectURL where
  source : FileInput
  deriving Repr, DecidableEq

/-- The file record built by the uploader and handed to `onFileUpload`. -/
structure UploadedFile where
  name : String
  type : String
  url : ObjectURL
  topics : List String
  deriving Repr, DecidableEq

/-- A callback invocation emitted by the uploader. -/
inductive UploadEvent where
  | fileUpload (fileData : UploadedFile)
  | topicDetected (topic : String)
  deriving Repr, DecidableEq

/-- The uploader component state touched by `handleFileChange`. -/
structure UploaderState where
  selectedFile : Option FileInput
  isLoading : Bool
  previewUrl : Option ObjectURL
  error : Option String
  deriving Repr, DecidableEq

/-- The media-type allow-list of `handleFileChange`. -/
def validTypes : List String :=
  [ "application/pdf"
  , "application/vnd.openxmlformats-officedocument.wordprocessingml.document"
  , "text/plain" ]

/-- The `fileData` record the accepted branch builds:
`topics` is `[file.name.split('.')[0]]`. -/
def mkFileData (file : FileInput) : UploadedFile :=
  { name := file.name
  , type := file.type
  , url := { source := file }
  , topics := [(jsSplit '.' file.name).headD ""] }

/-- `handleFileChange` of the uploader: `none` input models an empty file
selection (the `if (file)` guard).  A disallowed type sets the inline error
and returns without callbacks; an allowed type runs the simulated upload to
completion and fires `onFileUpload` then `onTopicDetected`. -/
def handleFileChange (s : UploaderState) (selected : Option FileInput) :
    UploaderState × List UploadEvent :=
  match selected with
  | none => (s, [])
  | some file =>
    if validTypes.contains file.type then
      let fileData := mkFileData file
      ({ s with
          error := none
        , selectedFile := none
        , isLoading := false
        , previewUrl := none },
       [.fileUpload fileData, .topicDetected (fileData.topics.headD "")])
    else
      ({ s with
          error := some "Please upload a PDF, DOCX, or TXT file."
        , selectedFile := none }, [])

/-- Modelled from the spec: "derives `topics[0]` as the filename with its
extension stripped" — everything before the last dot, or the whole name when
it has no dot.  This is the comparator for the refinement claim about
`mkFileData`; the source derives the topic with `split('.')[0]` instead. -/
def specStripExtension (name : String) : String :=
  if name.toList.contains '.' then
    String.mk (((name.toList.reverse.dropWhile (fun c => c != '.')).drop 1).reverse)
  else name

/-! ## Resources browser (`Resources.jsx`)

Catalog generation from the uploaded file topics, conjunctive
category/search filtering, and the favorites toggle. -/

/-- A catalog entry.  `tags` is optional because the default resource (shown
when no files are uploaded) carries no `tags` field; every topic-generated
resource has one.  Presentation-only numeric fields (rating, views, pages)
are omitted. -/
structure Resource where
  id : String
  type : String
  category : String
  title : String
  description : String
  url : String
  thumbnail : String
  topic : String
  author : String
  difficulty : String
  tags : Option (List String)
  deriving Repr, DecidableEq

/-- Collapses every maximal whitespace run to a single dash, mirroring
JavaScript `replace(/\s+/g, '-')`. -/
def dashWsRuns : List Char → List Char
  | [] => []
  | [c] => if c.isWhitespace then ['-'] else [c]
  | c₁ :: c₂ :: cs =>
    if c₁.isWhitespace && c₂.isWhitespace then dashWsRuns (c₂ :: cs)
    else (if c₁.isWhitespace then '-' else c₁) :: dashWsRuns (c₂ :: cs)

/-- `topic.toLowerCase().replace(/\s+/g, '-')` as used in generated article
URLs. -/
def slugify (s : String) : String :=
  String.mk (dashWsRuns (jsToLower s).toList)

/-- The fixed-shape resource cluster `generateResources` pushes for the
topic at position `topicIndex`: two videos, two articles, one interactive
item and one book, every field templated from the topic. -/
def resourceCluster (topicIndex : Nat) (topic : String) : List Resource :=
  let lower := jsToLower topic
  let slug := slugify topic
  [ { id := s!"video-{topicIndex}-1"
    , type := "video"
    , category := "video"
    , title := s!"{topic} - Complete Tutorial"
    , description := s!"Comprehensive video tutorial covering all aspects of {topic}"
    , url := "https://www.youtube.com/embed/dQw4w9WgXcQ"
    , thumbnail := "https://img.youtube.com/vi/dQw4w9WgXcQ/maxresdefault.jpg"
    , topic := topic
    , author := "EduTech Academy"
    , difficulty := "Beginner"
    , tags := some ["tutorial", "basics", lower] }
  , { id := s!"video-{topicIndex}-2"
    , type := "video"
    , category := "video"
    , title := s!"Advanced {topic} Concepts"
    , description := s!"Deep dive into advanced concepts and real-world applications of {topic}"
    , url := "https://www.youtube.com/embed/dQw4w9WgXcQ"
    , thumbnail := "https://img.youtube.com/vi/dQw4w9WgXcQ/maxresdefault.jpg"
    , topic := topic
    , author := "Tech Masters"
    , difficulty := "Advanced"
    , tags := some ["advanced", "concepts", lower] }
  , { id := s!"article-{topicIndex}-1"
    , type := "article"
    , category := "article"
    , title := s!"Understanding {topic}: A Comprehensive Guide"
    , description := s!"In-depth article explaining the fundamentals and applications of {topic}"
    , url := s!"https://example.com/{slug}-guide"
    , thumbnail := "https://via.placeholder.com/300x200?text=Article"
    , topic := topic
    , author := "Knowledge Hub"
    , difficulty := "Intermediate"
    , tags := some ["guide", "fundamentals", lower] }
  , { id := s!"article-{topicIndex}-2"
    , type := "article"
    , category := "article"
    , title := s!"{topic} Best Practices and Tips"
    , description := s!"Expert tips and best practices for mastering {topic}"
    , url := s!"https://example.com/{slug}-tips"
    , thumbnail := "https://via.placeholder.com/300x200?text=Tips"
    , topic := topic
    , author := "Expert Insights"
    , difficulty := "Intermediate"
    , tags := some ["tips", "best-practices", lower] }
  , { id := s!"interactive-{topicIndex}-1"
    , type := "interactive"
    , category := "interactive"
    , title := s!"{topic} Interactive Simulator"
    , description := s!"Hands-on interactive tool to practice and experiment with {topic} concepts"
    , url := s!"https://simulator.example.com/{lower}"
    , thumbnail := "https://via.placeholder.com/300x200?text=Interactive"
    , topic := topic
    , author := "Interactive Learning"
    , difficulty := "All Levels"
    , tags := some ["interactive", "practice", lower] }
  , { id := s!"book-{topicIndex}-1"
    , type := "book"
    , category := "book"
    , title := s!"The Complete {topic} Handbook"
    , description := s!"Comprehensive reference book covering everything about {topic}"
    , url := s!"https://books.example.com/{lower}-handbook.pdf"
    , thumbnail := "https://via.placeholder.com/300x400?text=Book"
    , topic := topic
    , author := "Dr. Academic Expert"
    , difficulty := "All Levels"
    , tags := some ["reference", "comprehensive", lower] } ]

/-- The static default catalog shown when no files are uploaded; note the
missing `tags` field. -/
def defaultResources : List Resource :=
  [ { id := "default-1"
    , type := "video"
    , category := "video"
    , title := "Getting Started with Learning"
    , description := "Learn how to make the most of your study sessions"
    , url := "https://www.youtube.com/embed/dQw4w9WgXcQ"
    , thumbnail := "https://img.youtube.com/vi/dQw4w9WgXcQ/maxresdefault.jpg"
    , topic := "Study Skills"
    , author := "Learning Academy"
    , difficulty := "Beginner"
    , tags := none } ]

/-- Worker for first-seen-order de-duplication (`[...new Set(allTopics)]`). -/
def dedupFirstAux (seen : List String) : List String → List String
  | [] => []
  | t :: ts =>
    if t ∈ seen then dedupFirstAux seen ts
    else t :: dedupFirstAux (t :: seen) ts

/-- `[...new Set(l)]`: de-duplication keeping the first occurrence of each
element, in order. -/
def dedupFirst (l : List String) : List String :=
  dedupFirstAux [] l

/-- The unique topics across all uploaded files, in first-seen order
(`uploadedFiles.flatMap(file => file.topics)` de-duplicated). -/
def uniqueTopics (files : List UploadedFile) : List String :=
  dedupFirst (files.flatMap (fun f => f.topics))

/-- `generateResources` of `Resources.jsx` (the body of the 1-second
timeout): one fixed-shape cluster per unique topic when files exist,
otherwise the static default catalog. -/
def generateResources (files : List UploadedFile) : List Resource :=
  if files.length > 0 then
    (uniqueTopics files).enum.flatMap (fun p => resourceCluster p.1 p.2)
  else defaultResources

/-- The free-text match of the filter effect in `Resources.jsx`.  The four
disjuncts are evaluated left to right as in JavaScript `||`; reading `tags`
on a resource without that field is a runtime `TypeError`, modelled as
`Except.error`. -/
def matchesSearch (r : Resource) (searchQuery : String) : Except Unit Bool :=
  let q := jsToLower searchQuery
  if jsIncludes (jsToLower r.title) q then .ok true
  else if jsIncludes (jsToLower r.description) q then .ok true
  else if jsIncludes (jsToLower r.topic) q then .ok true
  else
    match r.tags with
    | some tags => .ok (tags.any (fun tag => jsIncludes (jsToLower tag) q))
    | none => .error ()

/-- JavaScript `Array.prototype.filter` with a predicate that can throw:
elements are tested in order and the first exception aborts the whole
filter. -/
def filterExcept (p : Resource → Except Unit Bool) : List Resource → Except Unit (List Resource)
  | [] => .ok []
  | r :: rs =>
    match p r with
    | .error e => .error e
    | .ok b =>
      match filterExcept p rs with
      | .error e => .error e
      | .ok rest => .ok (if b then r :: rest else rest)

/-- The filter effect of `Resources.jsx`: category filter (exact match,
`"all"` bypasses) then free-text filter (skipped when the trimmed query is
empty, which is falsy in JavaScript). -/
def filterResources (resources : List Resource) (selectedCategory searchQuery : String) :
    Except Unit (List Resource) :=
  let afterCategory :=
    if selectedCategory ≠ "all" then
      resources.filter (fun r => r.category == selectedCategory)
    else resources
  if jsTrim searchQuery = "" then .ok afterCategory
  else filterExcept (fun r => matchesSearch r searchQuery) afterCategory

/-- `toggleFavorite` of `Resources.jsx`: remove the id when present (via
`filter`), append it when absent. -/
def toggleFavorite (resourceId : String) (favorites : List String) : List String :=
  if favorites.contains resourceId then
    favorites.filter (fun id => id != resourceId)
  else favorites ++ [resourceId]

/-! ## Derived notions used by the statements -/

/-- The free-text match as a total Boolean predicate, defined on resources
that carry a `tags` field (`matchesSearch` agrees with it there). -/
def matchesBool (r : Resource) (searchQuery : String) : Bool :=
  let q := jsToLower searchQuery
  jsIncludes (jsToLower r.title) q || jsIncludes (jsToLower r.description) q ||
    jsIncludes (jsToLower r.topic) q ||
    (r.tags.getD []).any (fun tag => jsIncludes (jsToLower tag) q)

/-- How many resources of a given type each topic cluster contains. -/
def clusterTyCount (ty : String) : Nat :=
  if ty = "video" then 2
  else if ty = "article" then 2
  else if ty = "interactive" then 1
  else if ty = "book" then 1
  else 0

/-- The session invariant of the quiz state machine: the question bank is the
loaded one, and the score is bounded by the total point value of the
questions encountered so far. -/
def QuizInv (qs : List Question) (s : QuizState) : Prop :=
  s.questions = qs ∧
    s.score ≤ sumPoints (s.questions.take
      (s.currentQuestion + (if s.isAnswered then 1 else 0)))

/-! ## Claim C5: submitAnswer is a no-op once the question is answered -/

/-- C5: in every quiz state whose current question is already answered, a
second `submitAnswer` call with any value returns the state unchanged — no
score change, no transcript entry, no flag change. -/
theorem handleAnswer_noop_when_answered (a : String) (s : QuizState)
    (h : s.isAnswered = true) : handleAnswer a s = some s := by
  simp [handleAnswer, h]

/-- Witness for `handleAnswer_noop_when_answered` at a concrete answered
state. -/
theorem handleAnswer_noop_when_answered_witness :
    handleAnswer "Option B - Advanced concept"
        { initQuizState (easyBank "Algebra") with isAnswered := true }
      = some { initQuizState (easyBank "Algebra") with isAnswered := true } :=
  handleAnswer_noop_when_answered "Option B - Advanced concept"
    { initQuizState (easyBank "Algebra") with isAnswered := true } rfl

/-! ## Claim C9: invalid media types are rejected without callbacks -/

/-- C9: a selected file whose declared media type is not pdf/docx/plain-text
sets the inline validation error, clears the selection, fires neither the
upload callback nor the topic-detected callback, and leaves the loading flag
(and the rest of the upload state) unchanged. -/
theorem handleFileChange_rejects_invalid_type (s : UploaderState) (file : FileInput)
    (h : validTypes.contains file.type = false) :
    handleFileChange s (some file) =
      ({ s with error := some "Please upload a PDF, DOCX, or TXT file."
              , selectedFile := none }, [])
      ∧ (handleFileChange s (some file)).2 = []
      ∧ (handleFileChange s (some file)).1.isLoading = s.isLoading
      ∧ (handleFileChange s (some file)).1.error ≠ none := by
  have h' : file.type ∉ validTypes := by simpa using h
  simp [handleFileChange, h']

/-- Witness for `handleFileChange_rejects_invalid_type`: a PNG upload into
the idle uploader. -/
theorem handleFileChange_rejects_invalid_type_witness :
    handleFileChange ⟨none, false, none, none⟩ (some ⟨"photo.png", "image/png"⟩) =
      ({ selectedFile := none, isLoading := false, previewUrl := none
       , error := some "Please upload a PDF, DOCX, or TXT file." }, [])
      ∧ (handleFileChange ⟨none, false, none, none⟩ (some ⟨"photo.png", "image/png"⟩)).2 = []
      ∧ (handleFileChange ⟨none, false, none, none⟩
          (some ⟨"photo.png", "image/png"⟩)).1.isLoading = false
      ∧ (handleFileChange ⟨none, false, none, none⟩
          (some ⟨"photo.png", "image/png"⟩)).1.error ≠ none :=
  handleFileChange_rejects_invalid_type ⟨none, false, none, none⟩
    ⟨"photo.png", "image/png"⟩ (by decide)

/-! ## Claim C3: unrecognized difficulties fall back to the medium bank -/

/-- C3: for every difficulty outside easy/medium/hard, question selection
falls back to the medium bank, so the loaded question list is non-empty and
the percentage denominator is positive. -/
theorem generateQuestions_fallback_medium (topic difficulty : String)
    (h1 : difficulty ≠ "easy") (h2 : difficulty ≠ "medium") (h3 : difficulty ≠ "hard") :
    generateQuestions topic difficulty = mediumBank topic
      ∧ generateQuestions topic difficulty ≠ []
      ∧ 0 < (generateQuestions topic difficulty).length := by
  simp [generateQuestions, h1, h2, h3, mediumBank]

/-- Witness for `generateQuestions_fallback_medium` at the difficulty
`"extreme"`. -/
theorem generateQuestions_fallback_medium_witness :
    generateQuestions "Algebra" "extreme" = mediumBank "Algebra"
      ∧ generateQuestions "Algebra" "extreme" ≠ []
      ∧ 0 < (generateQuestions "Algebra" "extreme").length :=
  generateQuestions_fallback_medium "Algebra" "extreme"
    (by decide) (by decide) (by decide)

/-! ## Claim C10: the favorites toggle is an involution on membership -/

/-- C10: toggling a resource id adds it exactly when absent and removes it
exactly when present, leaves every other id untouched, and toggling the same
id twice restores the original favorites set (membership-wise). -/
theorem toggleFavorite_involution (id : String) (favs : List String) :
    (id ∈ toggleFavorite id favs ↔ id ∉ favs)
      ∧ (∀ x, x ≠ id → (x ∈ toggleFavorite id favs ↔ x ∈ favs))
      ∧ (∀ x, x ∈ toggleFavorite id (toggleFavorite id favs) ↔ x ∈ favs) := by
  by_cases h : id ∈ favs
  · refine ⟨?_, ?_, ?_⟩
    · simp [toggleFavorite, h, List.mem_filter]
    · intro x hx
      simp [toggleFavorite, h, List.mem_filter, hx]
    · intro x
      by_cases hx : x = id
      · subst hx
        simp [toggleFavorite, h, List.mem_filter]
      · simp [toggleFavorite, h, List.mem_filter, hx]
  · refine ⟨?_, ?_, ?_⟩
    · simp [toggleFavorite, h]
    · intro x hx
      simp [toggleFavorite, h, hx]
    · intro x
      have hfilter : favs.filter (fun y => y != id) = favs :=
        List.filter_eq_self.mpr (fun a ha => by
          simp [bne_iff_ne]
          exact fun hEq => h (hEq ▸ ha))
      by_cases hx : x = id
      · subst hx
        simp [toggleFavorite, h, List.mem_filter, hfilter]
      · simp [toggleFavorite, h, List.mem_filter, hfilter, hx]

/-- Witness for `toggleFavorite_involution` with id `"a"` over the favorites
list `["b"]`. -/
theorem toggleFavorite_involution_witness :
    ("a" ∈ toggleFavorite "a" ["b"] ↔ "a" ∉ ["b"])
      ∧ ("b" ∈ toggleFavorite "a" ["b"] ↔ "b" ∈ ["b"])
      ∧ ("b" ∈ toggleFavorite "a" (toggleFavorite "a" ["b"]) ↔ "b" ∈ ["b"]) :=
  ⟨(toggleFavorite_involution "a" ["b"]).1,
   (toggleFavorite_involution "a" ["b"]).2.1 "b" (by decide),
   (toggleFavorite_involution "a" ["b"]).2.2 "b"⟩

/-! ## Claim C2: question-paper mark accounting -/

/-- C2: every generated paper has `totalMarks = mcq*1 + short*3 + long*10`,
each section total equals the sum of its question marks, and the sections
are Part A with `mcq` multiple-choice questions, Part B with `short`
short-answer questions and Part C with `long` long-answer questions; in
particular the hard 5/2/1 configuration totals 21 marks. -/
theorem generatePaper_mark_accounting (difficulty : String) (topics : List String)
    (mcq short long tl : Nat) :
    (generatePaper difficulty topics mcq short long tl).totalMarks
        = mcq * 1 + short * 3 + long * 10
      ∧ (generatePaper difficulty topics mcq short long tl).sections.map
          (fun sec => sec.totalMarks)
        = (generatePaper difficulty topics mcq short long tl).sections.map
          (fun sec => (sec.questions.map (fun q => q.marks)).sum)
      ∧ (generatePaper difficulty topics mcq short long tl).sections.map
          (fun sec => (sec.part, sec.title, sec.questions.length))
        = [("A", "Multiple Choice Questions", mcq),
           ("B", "Short Answer Questions", short),
           ("C", "Long Answer Questions", long)]
      ∧ (generatePaper "hard" [] 5 2 1 120).totalMarks = 21 := by
  refine ⟨rfl, ?_, ?_, by decide⟩
  · simp [generatePaper, List.map_map, Function.comp_def, mul_comm]
  · simp [generatePaper]

/-! ## Claim C4: the score is monotone and bounded by the total point value -/

/-- Total point value of a prefix never exceeds that of the whole bank. -/
theorem sumPoints_take_le (qs : List Question) (k : Nat) :
    sumPoints (qs.take k) ≤ sumPoints qs := by
  unfold sumPoints
  rw [List.map_take]
  conv_rhs => rw [← List.sum_take_add_sum_drop (qs.map fun q => jsOrNat q.points 1) k]
  exact Nat.le_add_right _ _

/-- Total point value of prefixes is monotone in the prefix length. -/
theorem sumPoints_take_mono (qs : List Question) {m n : Nat} (h : m ≤ n) :
    sumPoints (qs.take m) ≤ sumPoints (qs.take n) := by
  unfold sumPoints
  rw [List.map_take, List.map_take]
  have hsplit := List.sum_take_add_sum_drop ((qs.map fun q => jsOrNat q.points 1).take n) m
  rw [List.take_take, min_eq_left h] at hsplit
  omega

/-- Extending a prefix by the question at its end adds the point value of
that question. -/
theorem sumPoints_take_succ (qs : List Question) (n : Nat) (q : Question)
    (h : qs[n]? = some q) :
    sumPoints (qs.take (n + 1)) = sumPoints (qs.take n) + jsOrNat q.points 1 := by
  unfold sumPoints
  rw [List.take_succ, h]
  simp

/-- One interaction step preserves the session invariant. -/
theorem quizInv_step (qs : List Question) (op : QuizOp) (s s' : QuizState)
    (hInv : QuizInv qs s) (h : quizStep op s = some s') : QuizInv qs s' := by
  obtain ⟨hq, hsc⟩ := hInv
  cases op with
  | submit a =>
    simp only [quizStep] at h
    unfold handleAnswer at h
    split at h
    · injection h with h
      exact h ▸ ⟨hq, hsc⟩
    · rename_i ha
      split at h
      · exact absurd h (by simp)
      · rename_i q hget
        injection h with h
        subst h
        refine ⟨hq, ?_⟩
        simp only [if_neg ha] at hsc
        have hle : ∀ (c : Prop) (_ : Decidable c),
            (if c then jsOrNat q.points 1 else 0) ≤ jsOrNat q.points 1 := by
          intro c hc
          split
          · exact le_rfl
          · exact Nat.zero_le _
        simp only [if_pos rfl]
        calc s.score + _ ≤ sumPoints (s.questions.take s.currentQuestion)
              + jsOrNat q.points 1 := by
              simpa using Nat.add_le_add hsc (hle _ _)
          _ = sumPoints (s.questions.take (s.currentQuestion + 1)) :=
              (sumPoints_take_succ s.questions s.currentQuestion q hget).symm
  | advance =>
    simp only [quizStep] at h
    unfold nextQuestion at h
    split at h
    · injection h with h
      subst h
      refine ⟨hq, ?_⟩
      simp only [if_neg Bool.false_ne_true]
      refine le_trans hsc (sumPoints_take_mono s.questions ?_)
      split <;> omega
    · injection h with h
      subst h
      exact ⟨hq, hsc⟩

/-- Every state reachable by a sequence of interactions satisfies the
session invariant. -/
theorem quizInv_runFrom (qs : List Question) (ops : List QuizOp) (s s' : QuizState)
    (hInv : QuizInv qs s) (h : runQuizFrom s ops = some s') : QuizInv qs s' := by
  induction ops generalizing s with
  | nil =>
    simp only [runQuizFrom] at h
    injection h with h
    exact h ▸ hInv
  | cons op ops ih =>
    simp only [runQuizFrom] at h
    cases hstep : quizStep op s with
    | none => rw [hstep] at h; exact absurd h (by simp)
    | some s₁ =>
      rw [hstep] at h
      exact ih s₁ (quizInv_step qs op s s₁ hInv hstep) h

/-- C4: across every quiz session, `submitAnswer` never decreases the score,
`advance` leaves it unchanged, and after any sequence of interactions the
score never exceeds the sum of all question point values (defaulting to 1
for questions without an explicit point value, in particular all
multiple-choice ones). -/
theorem quiz_score_monotone_and_bounded :
    (∀ (a : String) (s s' : QuizState), handleAnswer a s = some s' → s.score ≤ s'.score)
      ∧ (∀ s : QuizState, ((nextQuestion s).1).score = s.score)
      ∧ (∀ (qs : List Question) (ops : List QuizOp) (s : QuizState),
          quizAfter qs ops = some s → s.score ≤ sumPoints qs) := by
  refine ⟨?_, ?_, ?_⟩
  · intro a s s' h
    unfold handleAnswer at h
    split at h
    · injection h with h
      exact h ▸ le_rfl
    · split at h
      · exact absurd h (by simp)
      · injection h with h
        subst h
        exact Nat.le_add_right _ _
  · intro s
    unfold nextQuestion
    split <;> rfl
  · intro qs ops s h
    have hInit : QuizInv qs (initQuizState qs) := by
      refine ⟨rfl, ?_⟩
      simp [initQuizState, sumPoints]
    have hInv := quizInv_runFrom qs ops (initQuizState qs) s hInit h
    refine le_trans hInv.2 ?_
    rw [hInv.1]
    exact sumPoints_take_le qs _

/-- Witness for `quiz_score_monotone_and_bounded`: one correct submission on
the easy bank raises the score from 0 to 1, and the empty interaction
sequence respects the bound. -/
theorem quiz_score_monotone_and_bounded_witness :
    ((initQuizState (easyBank "Algebra")).score
        ≤ ({ initQuizState (easyBank "Algebra") with
              selectedAnswer := "Option A - Basic concept"
            , isAnswered := true
            , score := 1
            , userAnswers := [{ question := "What is the basic definition of Algebra?"
                              , userAnswer := "Option A - Basic concept"
                              , correct := true }]
            , showExplanation := true } : QuizState).score)
      ∧ (initQuizState (easyBank "Algebra")).score ≤ sumPoints (easyBank "Algebra") :=
  ⟨quiz_score_monotone_and_bounded.1 "Option A - Basic concept"
      (initQuizState (easyBank "Algebra")) _ (by decide),
   quiz_score_monotone_and_bounded.2.2 (easyBank "Algebra") [] _ rfl⟩

/-! ## Claim C1: the completion payload and its percentage -/

/-- The integer percentage the quiz emits is the mathematical rounding (half
up, as JavaScript `Math.round`) of `100·score/total`. -/
theorem jsRoundPct_eq_round (score total : Nat) (h : 0 < total) :
    (jsRoundPct score total : ℤ) = round ((100 * (score : ℚ)) / (total : ℚ)) := by
  have ht : (total : ℚ) ≠ 0 := Nat.cast_ne_zero.mpr h.ne'
  rw [round_eq]
  have key : 100 * (score : ℚ) / total + 1 / 2
      = ((200 * score + total : ℕ) : ℚ) / ((2 * total : ℕ) : ℚ) := by
    push_cast
    field_simp
    ring
  rw [key]
  have hnonneg : (0 : ℚ) ≤ ((200 * score + total : ℕ) : ℚ) / ((2 * total : ℕ) : ℚ) := by
    positivity
  rw [← Int.natCast_floor_eq_floor hnonneg, Nat.floor_div_eq_div]
  rfl

/-- Counterexample to C1 as stated: on the (default) medium bank, answering
both questions correctly completes the quiz with score 11 (the short-answer
question is worth 10 points), total 2 and percentage 550 — not score = total
and percentage = 100 as the claim asserts of every 2-question quiz. -/
theorem quiz_completion_scenario_counterexample :
    ((quizAfter (mediumBank "Algebra")
        [.submit "A thorough answer", .advance, .submit "Balanced pros and cons"]).map
      (fun s => ((nextQuestion s).2.map (fun p => (p.score, p.total, p.percentage))))
      = some (some (11, 2, 550)))
      ∧ ((quizAfter (mediumBank "Algebra")
          [.submit "A thorough answer", .advance, .submit "Balanced pros and cons"]).map
        (fun s => s.userAnswers.map (fun a => a.correct)) = some [true, true])
      ∧ ((quizAfter (mediumBank "Algebra")
          [.submit "A thorough answer", .advance, .submit "Balanced pros and cons"]).map
        (fun s => ((nextQuestion s).2.map (fun p => (p.score, p.total, p.percentage))))
        ≠ some (some (2, 2, 100))) := by
  refine ⟨by decide, by decide, by decide⟩

/-- C1 (amended): advancing past the last question always invokes the
completion callback with the current score, the bank size as total, the
transcript, and percentage = round(100·score/total); a 2-question quiz whose
questions are all worth one point (the easy bank) answered fully correctly
completes with score = total = 2 and percentage = 100.  (On the medium bank
the same interaction yields score 11 and percentage 550, see the
counterexample.) -/
theorem quiz_completion_payload :
    (∀ s : QuizState, ¬(s.currentQuestion + 1 < s.questions.length) →
        (nextQuestion s).2 = some
          { score := s.score
          , total := s.questions.length
          , userAnswers := s.userAnswers
          , percentage := jsRoundPct s.score s.questions.length })
      ∧ (∀ score total : Nat, 0 < total →
          (jsRoundPct score total : ℤ) = round ((100 * (score : ℚ)) / (total : ℚ)))
      ∧ ((quizAfter (easyBank "Algebra")
          [.submit "Option A - Basic concept", .advance, .submit "Related concept A"]).map
        (fun s => ((nextQuestion s).2.map (fun p => (p.score, p.total, p.percentage))))
        = some (some (2, 2, 100))) := by
  refine ⟨?_, jsRoundPct_eq_round, by decide⟩
  intro s h
  unfold nextQuestion
  rw [if_neg h]

/-- Witness for `quiz_completion_payload`: the concrete end state of the
fully-correct easy-bank session, and the rounding identity at 11/2. -/
theorem quiz_completion_payload_witness :
    ((nextQuestion { questions := easyBank "Algebra"
                   , currentQuestion := 1
                   , score := 2
                   , selectedAnswer := "Related concept A"
                   , showResult := false
                   , showExplanation := true
                   , userAnswers := []
                   , isAnswered := true }).2 = some
        { score := 2
        , total := (easyBank "Algebra").length
        , userAnswers := []
        , percentage := jsRoundPct 2 (easyBank "Algebra").length })
      ∧ (jsRoundPct 11 2 : ℤ) = round ((100 * (11 : ℚ)) / (2 : ℚ)) := by
  refine ⟨quiz_completion_payload.1 _ (by decide), ?_⟩
  have := quiz_completion_payload.2.1 11 2 (by decide)
  simpa using this

/-! ## Claim C6: the detected topic versus extension stripping -/

/-- Splitting a list free of the separator yields the singleton list. -/
theorem splitOnChar_of_not_mem (c : Char) (l : List Char) (h : c ∉ l) :
    splitOnChar c l = [l] := by
  induction l with
  | nil => rfl
  | cons x xs ih =>
    have hx : ¬(x = c) := fun hEq => h (hEq ▸ List.mem_cons_self x xs)
    have hxs : c ∉ xs := fun hm => h (List.mem_cons_of_mem _ hm)
    simp [splitOnChar, ih hxs, hx]

/-- Splitting at the first separator occurrence peels off the prefix before
it. -/
theorem splitOnChar_append (c : Char) (l₁ l₂ : List Char) (h : c ∉ l₁) :
    splitOnChar c (l₁ ++ c :: l₂) = l₁ :: splitOnChar c l₂ := by
  induction l₁ with
  | nil => simp [splitOnChar]
  | cons x xs ih =>
    have hx : ¬(x = c) := fun hEq => h (hEq ▸ List.mem_cons_self x xs)
    have hxs : c ∉ xs := fun hm => h (List.mem_cons_of_mem _ hm)
    simp [splitOnChar, ih hxs, hx]

/-- Dropping while a predicate holds skips any block that satisfies it
everywhere. -/
theorem dropWhile_append_of_all {α : Type} (p : α → Bool) (l₁ l₂ : List α)
    (h : ∀ a ∈ l₁, p a = true) :
    List.dropWhile p (l₁ ++ l₂) = List.dropWhile p l₂ := by
  induction l₁ with
  | nil => rfl
  | cons x xs ih =>
    simp only [List.cons_append, List.dropWhile_cons,
      h x (List.mem_cons_self x xs), if_true]
    exact ih (fun a ha => h a (List.mem_cons_of_mem _ ha))

/-- Counterexample to C6 as stated: accepting the file `a.b.pdf` emits
`topics[0] = "a"` (the prefix before the first dot), while the filename with
its extension stripped is `"a.b"`. -/
theorem upload_topic_counterexample :
    (handleFileChange ⟨none, false, none, none⟩
        (some ⟨"a.b.pdf", "application/pdf"⟩)).2 =
      [.fileUpload { name := "a.b.pdf", type := "application/pdf"
                   , url := ⟨⟨"a.b.pdf", "application/pdf"⟩⟩, topics := ["a"] },
       .topicDetected "a"]
      ∧ specStripExtension "a.b.pdf" = "a.b"
      ∧ ("a" : String) ≠ "a.b" := by
  refine ⟨by decide, by decide, by decide⟩

/-- C6 (amended): every accepted file named `stem.ext` gets
`topics[0] = stem`, the part of the filename before the *first* dot; when
neither the stem nor the extension contains a further dot this coincides
with the filename with its extension stripped (so the `notes.pdf` scenario
holds), but for names with several dots it differs from extension
stripping. -/
theorem upload_topic_before_first_dot (s : UploaderState) (stem ext : List Char)
    (ftype : String) (hvalid : validTypes.contains ftype = true)
    (hstem : '.' ∉ stem) (hext : '.' ∉ ext) :
    (handleFileChange s (some ⟨String.mk (stem ++ '.' :: ext), ftype⟩)).2 =
      [.fileUpload (mkFileData ⟨String.mk (stem ++ '.' :: ext), ftype⟩),
       .topicDetected (String.mk stem)]
      ∧ (mkFileData ⟨String.mk (stem ++ '.' :: ext), ftype⟩).topics = [String.mk stem]
      ∧ String.mk stem = specStripExtension (String.mk (stem ++ '.' :: ext)) := by
  have hsplit : jsSplit '.' (String.mk (stem ++ '.' :: ext))
      = [String.mk stem, String.mk ext] := by
    unfold jsSplit
    have hl : (String.mk (stem ++ '.' :: ext)).toList = stem ++ '.' :: ext := rfl
    rw [hl, splitOnChar_append _ _ _ hstem, splitOnChar_of_not_mem _ _ hext]
    rfl
  have htopics : (mkFileData ⟨String.mk (stem ++ '.' :: ext), ftype⟩).topics
      = [String.mk stem] := by
    simp [mkFileData, hsplit]
  have hstrip : specStripExtension (String.mk (stem ++ '.' :: ext)) = String.mk stem := by
    unfold specStripExtension
    have hl : (String.mk (stem ++ '.' :: ext)).toList = stem ++ '.' :: ext := rfl
    rw [hl]
    rw [if_pos (by simp)]
    have hrev : (stem ++ '.' :: ext).reverse = ext.reverse ++ '.' :: stem.reverse := by
      simp [List.reverse_append]
    rw [hrev, dropWhile_append_of_all _ _ _ (fun a ha => ?_)]
    · simp [List.dropWhile_cons]
    · have : a ≠ '.' := fun hEq => hext (hEq ▸ (List.mem_reverse.mp ha))
      simpa [bne_iff_ne] using this
  refine ⟨?_, htopics, hstrip.symm⟩
  have hv : ftype ∈ validTypes := by
    simpa using hvalid
  simp [handleFileChange, hv, htopics]

/-- Witness for `upload_topic_before_first_dot`: uploading `notes.pdf` with
type `application/pdf` detects the topic `"notes"`, which equals the
filename with its extension stripped. -/
theorem upload_topic_before_first_dot_witness :
    (handleFileChange ⟨none, false, none, none⟩
        (some ⟨String.mk (['n', 'o', 't', 'e', 's'] ++ '.' :: ['p', 'd', 'f']),
               "application/pdf"⟩)).2 =
      [.fileUpload (mkFileData ⟨String.mk (['n', 'o', 't', 'e', 's'] ++ '.' :: ['p', 'd', 'f']),
                    "application/pdf"⟩),
       .topicDetected (String.mk ['n', 'o', 't', 'e', 's'])]
      ∧ (mkFileData ⟨String.mk (['n', 'o', 't', 'e', 's'] ++ '.' :: ['p', 'd', 'f']),
          "application/pdf"⟩).topics = [String.mk ['n', 'o', 't', 'e', 's']]
      ∧ String.mk ['n', 'o', 't', 'e', 's']
        = specStripExtension (String.mk (['n', 'o', 't', 'e', 's'] ++ '.' :: ['p', 'd', 'f'])) :=
  upload_topic_before_first_dot ⟨none, false, none, none⟩
    ['n', 'o', 't', 'e', 's'] ['p', 'd', 'f'] "application/pdf"
    (by decide) (by decide) (by decide)

/-! ## Claim C7: shape of the generated resource catalog -/

/-- First-seen de-duplication produces a duplicate-free list whose elements
avoid the accumulator. -/
theorem dedupFirstAux_spec (l : List String) : ∀ seen : List String,
    (dedupFirstAux seen l).Nodup ∧ ∀ x ∈ dedupFirstAux seen l, x ∉ seen := by
  induction l with
  | nil => exact fun seen => ⟨List.nodup_nil, by simp [dedupFirstAux]⟩
  | cons t ts ih =>
    intro seen
    by_cases h : t ∈ seen
    · simpa [dedupFirstAux, h] using ih seen
    · obtain ⟨hnd, hnotin⟩ := ih (t :: seen)
      refine ⟨?_, ?_⟩
      · simp only [dedupFirstAux, if_neg h, List.nodup_cons]
        exact ⟨fun hmem => hnotin t hmem (List.mem_cons_self t seen), hnd⟩
      · intro x hx
        simp only [dedupFirstAux, if_neg h, List.mem_cons] at hx
        rcases hx with hx | hx
        · exact hx ▸ h
        · exact fun hxs => hnotin x hx (List.mem_cons_of_mem _ hxs)

/-- The unique-topic list of a file set contains no duplicates. -/
theorem uniqueTopics_nodup (files : List UploadedFile) : (uniqueTopics files).Nodup :=
  (dedupFirstAux_spec (files.flatMap (fun f => f.topics)) []).1

/-- How many resources of a cluster have a given topic and type: the fixed
per-type count when the topic matches, zero otherwise. -/
theorem resourceCluster_count (i : Nat) (u t ty : String) :
    ((resourceCluster i u).filter (fun r => r.topic == t && r.type == ty)).length
      = if u = t then clusterTyCount ty else 0 := by
  by_cases h : u = t
  · subst h
    rw [if_pos rfl]
    by_cases hv : ty = "video"
    · subst hv; simp [resourceCluster, clusterTyCount]
    · by_cases ha : ty = "article"
      · subst ha; simp [resourceCluster, clusterTyCount]
      · by_cases hi : ty = "interactive"
        · subst hi; simp [resourceCluster, clusterTyCount]
        · by_cases hb : ty = "book"
          · subst hb; simp [resourceCluster, clusterTyCount]
          · have hv' : ¬("video" = ty) := fun hEq => hv hEq.symm
            have ha' : ¬("article" = ty) := fun hEq => ha hEq.symm
            have hi' : ¬("interactive" = ty) := fun hEq => hi hEq.symm
            have hb' : ¬("book" = ty) := fun hEq => hb hEq.symm
            simp [resourceCluster, clusterTyCount, hv, ha, hi, hb, hv', ha', hi', hb']
  · rw [if_neg h]
    simp [resourceCluster, h]

/-- No cluster of a topic list avoiding `t` contributes a resource with
topic `t`. -/
theorem flatMapCount_not_mem (t ty : String) (n : Nat) (l : List String)
    (h : t ∉ l) :
    (((List.enumFrom n l).flatMap (fun p => resourceCluster p.1 p.2)).filter
        (fun r => r.topic == t && r.type == ty)).length = 0 := by
  induction l generalizing n with
  | nil => rfl
  | cons u us ih =>
    have hu : ¬(u = t) := fun hEq => h (hEq ▸ List.mem_cons_self u us)
    have hus : t ∉ us := fun hm => h (List.mem_cons_of_mem _ hm)
    show (((( n, u) :: List.enumFrom (n + 1) us).flatMap
        (fun p => resourceCluster p.1 p.2)).filter
        (fun r => r.topic == t && r.type == ty)).length = 0
    rw [List.flatMap_cons, List.filter_append, List.length_append,
      resourceCluster_count, if_neg hu, ih (n + 1) hus]

/-- Across a duplicate-free topic list containing `t`, exactly one cluster
contributes, giving the fixed per-type count. -/
theorem flatMapCount_mem (t ty : String) (n : Nat) (l : List String)
    (hnd : l.Nodup) (hmem : t ∈ l) :
    (((List.enumFrom n l).flatMap (fun p => resourceCluster p.1 p.2)).filter
        (fun r => r.topic == t && r.type == ty)).length = clusterTyCount ty := by
  induction l generalizing n with
  | nil => cases hmem
  | cons u us ih =>
    obtain ⟨hu_nin, hus_nd⟩ := List.nodup_cons.mp hnd
    show (((( n, u) :: List.enumFrom (n + 1) us).flatMap
        (fun p => resourceCluster p.1 p.2)).filter
        (fun r => r.topic == t && r.type == ty)).length = clusterTyCount ty
    rw [List.flatMap_cons, List.filter_append, List.length_append,
      resourceCluster_count]
    by_cases hu : u = t
    · rw [if_pos hu, flatMapCount_not_mem t ty (n + 1) us (hu ▸ hu_nin)]
      omega
    · rw [if_neg hu]
      have hts : t ∈ us := by
        rcases List.mem_cons.mp hmem with hEq | hts
        · exact absurd hEq.symm hu
        · exact hts
      rw [ih (n + 1) hus_nd hts]
      omega

/-- C7: with no uploaded files the catalog is the single static default
resource on topic "Study Skills"; with uploaded files, every unique topic
(first-seen order, de-duplicated) receives exactly 2 videos, 2 articles,
1 interactive resource and 1 book in the generated catalog. -/
theorem generateResources_counts :
    (generateResources [] = defaultResources
      ∧ (generateResources []).map (fun r => r.topic) = ["Study Skills"])
      ∧ ∀ (files : List UploadedFile) (t : String), files ≠ [] → t ∈ uniqueTopics files →
          ((generateResources files).filter
              (fun r => r.topic == t && r.type == "video")).length = 2
          ∧ ((generateResources files).filter
              (fun r => r.topic == t && r.type == "article")).length = 2
          ∧ ((generateResources files).filter
              (fun r => r.topic == t && r.type == "interactive")).length = 1
          ∧ ((generateResources files).filter
              (fun r => r.topic == t && r.type == "book")).length = 1 := by
  refine ⟨⟨rfl, rfl⟩, ?_⟩
  intro files t hne hmem
  have hlen : files.length > 0 := List.length_pos.mpr hne
  have hgen : generateResources files
      = (List.enumFrom 0 (uniqueTopics files)).flatMap
          (fun p => resourceCluster p.1 p.2) := by
    simp only [generateResources, if_pos hlen]
    rfl
  have hnd := uniqueTopics_nodup files
  rw [hgen]
  exact ⟨flatMapCount_mem t "video" 0 _ hnd hmem,
    flatMapCount_mem t "article" 0 _ hnd hmem,
    flatMapCount_mem t "interactive" 0 _ hnd hmem,
    flatMapCount_mem t "book" 0 _ hnd hmem⟩

/-- Witness for `generateResources_counts`: a single uploaded file on the
topic "Machine Learning" gets its full six-resource cluster. -/
theorem generateResources_counts_witness :
    ((generateResources [{ name := "ml.pdf", type := "application/pdf"
                         , url := ⟨⟨"ml.pdf", "application/pdf"⟩⟩
                         , topics := ["Machine Learning"] }]).filter
        (fun r => r.topic == "Machine Learning" && r.type == "video")).length = 2
      ∧ ((generateResources [{ name := "ml.pdf", type := "application/pdf"
                             , url := ⟨⟨"ml.pdf", "application/pdf"⟩⟩
                             , topics := ["Machine Learning"] }]).filter
          (fun r => r.topic == "Machine Learning" && r.type == "article")).length = 2
      ∧ ((generateResources [{ name := "ml.pdf", type := "application/pdf"
                             , url := ⟨⟨"ml.pdf", "application/pdf"⟩⟩
                             , topics := ["Machine Learning"] }]).filter
          (fun r => r.topic == "Machine Learning" && r.type == "interactive")).length = 1
      ∧ ((generateResources [{ name := "ml.pdf", type := "application/pdf"
                             , url := ⟨⟨"ml.pdf", "application/pdf"⟩⟩
                             , topics := ["Machine Learning"] }]).filter
          (fun r => r.topic == "Machine Learning" && r.type == "book")).length = 1 :=
  generateResources_counts.2
    [{ name := "ml.pdf", type := "application/pdf"
     , url := ⟨⟨"ml.pdf", "application/pdf"⟩⟩, topics := ["Machine Learning"] }]
    "Machine Learning" (by decide) (by decide)

/-! ## Claim C8: conjunctive filtering of the catalog -/

/-- On a resource that carries a `tags` field, the free-text match evaluates
without error to the total Boolean predicate. -/
theorem matchesSearch_ok (r : Resource) (searchQuery : String)
    (h : r.tags.isSome = true) :
    matchesSearch r searchQuery = .ok (matchesBool r searchQuery) := by
  obtain ⟨tags, htags⟩ := Option.isSome_iff_exists.mp h
  simp only [matchesSearch, matchesBool, htags]
  by_cases h1 : jsIncludes (jsToLower r.title) (jsToLower searchQuery) = true
  · simp [h1]
  · by_cases h2 : jsIncludes (jsToLower r.description) (jsToLower searchQuery) = true
    · simp [h1, h2]
    · by_cases h3 : jsIncludes (jsToLower r.topic) (jsToLower searchQuery) = true
      · simp [h1, h2, h3]
      · simp [h1, h2, h3]

/-- A throwing filter whose predicate succeeds on every element of the list
is the ordinary filter. -/
theorem filterExcept_ok (g : Resource → Bool) (f : Resource → Except Unit Bool)
    (l : List Resource) (h : ∀ r ∈ l, f r = .ok (g r)) :
    filterExcept f l = .ok (l.filter g) := by
  induction l with
  | nil => rfl
  | cons r rs ih =>
    have hr := h r (List.mem_cons_self r rs)
    have hrest := ih (fun x hx => h x (List.mem_cons_of_mem _ hx))
    simp [filterExcept, hr, hrest, List.filter_cons]

/-- Counterexample to C8 as stated: on the default catalog (no uploaded
files) the single default resource has no `tags` field, so the query
`"zzzz"` — which matches no title, description or topic — makes the filter
throw instead of yielding the empty result the claim requires. -/
theorem filter_default_catalog_error :
    filterResources (generateResources []) "all" "zzzz" = .error ()
      ∧ filterResources (generateResources []) "all" "zzzz" ≠ .ok [] := by
  have h1 : filterResources (generateResources []) "all" "zzzz" = .error () := rfl
  refine ⟨h1, ?_⟩
  rw [h1]
  intro h
  exact Except.noConfusion h

/-- C8 (amended): on every catalog whose resources all carry a `tags` list —
in particular every catalog generated from a non-empty upload list —
filtering never throws and is exactly the conjunctive filter: a resource
survives iff it passes the category filter (`"all"` bypasses, otherwise
exact category match) and, unless the trimmed query is empty, the
case-insensitive substring match against title, description, topic or a
tag; the result is a sublist of the unchanged catalog.  (On the default
catalog, whose resource lacks `tags`, an otherwise-unmatched query throws
instead — see the counterexample.) -/
theorem filter_conjunctive (resources : List Resource) (cat q : String)
    (htags : ∀ r ∈ resources, r.tags.isSome = true) :
    filterResources resources cat q
        = .ok (resources.filter (fun r =>
            (cat == "all" || r.category == cat)
              && (jsTrim q == "" || matchesBool r q)))
      ∧ (resources.filter (fun r =>
            (cat == "all" || r.category == cat)
              && (jsTrim q == "" || matchesBool r q))).Sublist resources
      ∧ ∀ r, r ∈ resources.filter (fun r =>
            (cat == "all" || r.category == cat)
              && (jsTrim q == "" || matchesBool r q))
          ↔ r ∈ resources ∧ (cat = "all" ∨ r.category = cat)
            ∧ (jsTrim q = "" ∨ matchesBool r q = true) := by
  refine ⟨?_, List.filter_sublist _, ?_⟩
  · unfold filterResources
    by_cases hcat : cat = "all"
    · subst hcat
      rw [if_neg (show ¬(("all" : String) ≠ "all") from fun h => h rfl)]
      by_cases hq : jsTrim q = ""
      · rw [if_pos hq]
        have hself : resources.filter (fun r =>
            (("all" : String) == "all" || r.category == "all")
              && (jsTrim q == "" || matchesBool r q)) = resources :=
          List.filter_eq_self.mpr (fun r _ => by simp [hq])
        rw [hself]
      · rw [if_neg hq,
          filterExcept_ok (fun r => matchesBool r q) _ resources
            (fun r hr => matchesSearch_ok r q (htags r hr))]
        have hq' : (jsTrim q == "") = false := beq_eq_false_iff_ne.mpr hq
        have hcongr : resources.filter (fun r =>
            (("all" : String) == "all" || r.category == "all")
              && (jsTrim q == "" || matchesBool r q))
            = resources.filter (fun r => matchesBool r q) :=
          List.filter_congr (fun r _ => by simp [hq'])
        rw [hcongr]
    · rw [if_pos hcat]
      have hcat' : (cat == "all") = false := beq_eq_false_iff_ne.mpr hcat
      by_cases hq : jsTrim q = ""
      · rw [if_pos hq]
        have hcongr : resources.filter (fun r =>
            (cat == "all" || r.category == cat)
              && (jsTrim q == "" || matchesBool r q))
            = resources.filter (fun r => r.category == cat) :=
          List.filter_congr (fun r _ => by simp [hq, hcat'])
        rw [hcongr]
      · rw [if_neg hq,
          filterExcept_ok (fun r => matchesBool r q) _ _
            (fun r hr => matchesSearch_ok r q (htags r ((List.filter_sublist _).subset hr)))]
        have hq' : (jsTrim q == "") = false := beq_eq_false_iff_ne.mpr hq
        rw [List.filter_filter]
        have hcongr : resources.filter (fun r =>
            (cat == "all" || r.category == cat)
              && (jsTrim q == "" || matchesBool r q))
            = resources.filter (fun r => matchesBool r q && (r.category == cat)) :=
          List.filter_congr (fun r _ => by
            simp only [hq', hcat', Bool.false_or]
            exact Bool.and_comm _ _)
        rw [hcongr]
  · intro r
    rw [List.mem_filter]
    simp [Bool.and_eq_true, Bool.or_eq_true, beq_iff_eq, and_assoc]

/-- Witness for `filter_conjunctive`: the catalog of one "Data Science"
upload, category `"video"`, query `"zzz"`. -/
theorem filter_conjunctive_witness :
    filterResources (generateResources [{ name := "ds.pdf", type := "application/pdf"
                                        , url := ⟨⟨"ds.pdf", "application/pdf"⟩⟩
                                        , topics := ["Data Science"] }]) "video" "zzz"
        = .ok ((generateResources [{ name := "ds.pdf", type := "application/pdf"
                                   , url := ⟨⟨"ds.pdf", "application/pdf"⟩⟩
                                   , topics := ["Data Science"] }]).filter (fun r =>
            (("video" : String) == "all" || r.category == "video")
              && (jsTrim "zzz" == "" || matchesBool r "zzz")))
      ∧ ((generateResources [{ name := "ds.pdf", type := "application/pdf"
                             , url := ⟨⟨"ds.pdf", "application/pdf"⟩⟩
                             , topics := ["Data Science"] }]).filter (fun r =>
            (("video" : String) == "all" || r.category == "video")
              && (jsTrim "zzz" == "" || matchesBool r "zzz"))).Sublist
          (generateResources [{ name := "ds.pdf", type := "application/pdf"
                              , url := ⟨⟨"ds.pdf", "application/pdf"⟩⟩
                              , topics := ["Data Science"] }])
      ∧ ∀ r, r ∈ (generateResources [{ name := "ds.pdf", type := "application/pdf"
                                     , url := ⟨⟨"ds.pdf", "application/pdf"⟩⟩
                                     , topics := ["Data Science"] }]).filter (fun r =>
            (("video" : String) == "all" || r.category == "video")
              && (jsTrim "zzz" == "" || matchesBool r "zzz"))
          ↔ r ∈ (generateResources [{ name := "ds.pdf", type := "application/pdf"
                                    , url := ⟨⟨"ds.pdf", "application/pdf"⟩⟩
                                    , topics := ["Data Science"] }])
            ∧ (("video" : String) = "all" ∨ r.category = "video")
            ∧ (jsTrim "zzz" = "" ∨ matchesBool r "zzz" = true) :=
  filter_conjunctive
    (generateResources [{ name := "ds.pdf", type := "application/pdf"
                        , url := ⟨⟨"ds.pdf", "application/pdf"⟩⟩
                        , topics := ["Data Science"] }]) "video" "zzz" (by decide)

end GenaiHack
